import Mathlib

/-!
Shallow embedding of `src/static/script.js` (backtest_analysis front-end).

JavaScript numbers are modelled as rationals (`ℚ`); the distinguished
not-a-number value is modelled by `Option ℚ` with `none` standing for NaN.
JavaScript values that the script manipulates (numbers, strings, `null`,
`undefined`, NaN) are the inductive `JSVal`.  Stateful DOM / network code is
modelled as explicit state passing over a record `St`, with the outcomes of
the three HTTP fetches supplied by an environment `Env`; fetch or JSON-parse
failure is an `Except Unit` error.

Rational arithmetic is performed through `qmul` / `qdiv` / `qadd`, which are
proved equal (`qmul_eq`, `qdiv_eq`, `qadd_eq`) to the field operations of
`ℚ`; they are spelled through `Rat.divInt` so that closed instances of the
embedding evaluate by `decide`.
-/

/-- Multiplication on `ℚ`, spelled via `Rat.divInt`; equals `a * b`
(`qmul_eq`). -/
def qmul (a b : ℚ) : ℚ :=
  Rat.divInt (a.num * b.num) ((a.den : Int) * (b.den : Int))

/-- Division on `ℚ`, spelled via `Rat.divInt`; equals `a / b`
(`qdiv_eq`). -/
def qdiv (a b : ℚ) : ℚ :=
  Rat.divInt (a.num * (b.den : Int)) ((a.den : Int) * b.num)

/-- Addition on `ℚ`, spelled via `Rat.divInt`; equals `a + b`
(`qadd_eq`). -/
def qadd (a b : ℚ) : ℚ :=
  Rat.divInt (a.num * (b.den : Int) + b.num * (a.den : Int))
    ((a.den : Int) * (b.den : Int))

theorem qmul_eq (a b : ℚ) : qmul a b = a * b := by
  rw [qmul, Rat.divInt_eq_div]
  push_cast
  rw [← div_mul_div_comm, Rat.num_div_den, Rat.num_div_den]

theorem qadd_eq (a b : ℚ) : qadd a b = a + b := by
  rw [qadd, Rat.divInt_eq_div]
  conv_rhs => rw [← Rat.num_div_den a, ← Rat.num_div_den b]
  rw [div_add_div _ _ (by positivity) (by positivity)]
  push_cast
  ring_nf

theorem qdiv_eq (a b : ℚ) : qdiv a b = a / b := by
  rw [qdiv, Rat.divInt_eq_div]
  conv_rhs => rw [← Rat.num_div_den a, ← Rat.num_div_den b]
  rw [div_div_div_eq]
  push_cast
  ring_nf

/-- A JavaScript value as used by the formatting helpers of the script:
a (finite) number, NaN, `null`, `undefined`, or a string. -/
inductive JSVal where
  | num (q : ℚ)
  | nan
  | null
  | undef
  | str (s : String)
  deriving DecidableEq, Repr

/-- JavaScript truthiness for `JSVal` (`!value` in the script is the
negation of this): `0`, NaN, `null`, `undefined` and `""` are falsy. -/
def truthy : JSVal → Bool
  | JSVal.num q => q != 0
  | JSVal.nan => false
  | JSVal.null => false
  | JSVal.undef => false
  | JSVal.str s => s != ""

/-- Whether every character of the list is a decimal digit. -/
def allDigits (cs : List Char) : Bool := cs.all Char.isDigit

/-- Natural number denoted by a list of decimal digit characters. -/
def natOfDigits (cs : List Char) : ℕ :=
  cs.foldl (fun a c => 10 * a + (c.toNat - 48)) 0

/-- JavaScript `ToNumber` on a string, restricted to optionally signed
decimal literals (`none` is NaN; the exponent and hex forms of the host
conversion are not modelled, no claim exercises them).  A trimmed empty
string converts to `0`. -/
def strToNum (s : String) : Option ℚ :=
  let cs := s.trim.toList
  match cs with
  | [] => some 0
  | _ =>
    let sgn : Int := match cs with
      | '-' :: _ => -1
      | _ => 1
    let body : List Char := match cs with
      | '-' :: rest => rest
      | '+' :: rest => rest
      | _ => cs
    let intPart := body.takeWhile Char.isDigit
    let rest := body.dropWhile Char.isDigit
    match rest with
    | [] =>
      if intPart.isEmpty then none
      else some (Rat.divInt (sgn * natOfDigits intPart) 1)
    | '.' :: frac =>
      if allDigits frac && !(intPart.isEmpty && frac.isEmpty) then
        some (Rat.divInt
          (sgn * (natOfDigits intPart * 10 ^ frac.length + natOfDigits frac))
          (10 ^ frac.length))
      else none
    | _ => none

/-- JavaScript `ToNumber` on a `JSVal`; `none` stands for NaN.
`null` converts to `0`, `undefined` to NaN. -/
def toNumber : JSVal → Option ℚ
  | JSVal.num q => some q
  | JSVal.nan => none
  | JSVal.null => some 0
  | JSVal.undef => none
  | JSVal.str s => strToNum s

/-- Two-digit zero padding of a residue `< 100`. -/
def pad2 (n : ℕ) : String :=
  (if n < 10 then "0" else "") ++ toString n

/-- `toFixed(2)` on a nonnegative rational: the integer `n` with
`n / 100` closest to the argument, ties towards the larger `n`
(the ECMAScript rule), printed with exactly two fractional digits. -/
def toFixed2NN (q : ℚ) : String :=
  let n : ℕ := (Int.floor (qadd (qmul q 100) (Rat.divInt 1 2))).toNat
  toString (n / 100) ++ "." ++ pad2 (n % 100)

/-- ECMAScript `Number.prototype.toFixed(2)`: a leading sign for negative
arguments, then the nonnegative rendering. -/
def toFixed2 (q : ℚ) : String :=
  if q < 0 then "-" ++ toFixed2NN (-q) else toFixed2NN q

/-- `toFixed(2)` lifted to possibly-NaN numbers: NaN prints as `"NaN"`. -/
def toFixedJS : Option ℚ → String
  | none => "NaN"
  | some q => toFixed2 q

/-- JavaScript `>=` between a possibly-NaN number and a finite bound:
any comparison with NaN is false. -/
def numGE (a : Option ℚ) (b : ℚ) : Bool :=
  match a with
  | none => false
  | some q => decide (b ≤ q)

/-- Three-digit zero padding of a residue `< 1000`. -/
def pad3 (n : ℕ) : String :=
  (if n < 10 then "00" else if n < 100 then "0" else "") ++ toString n

/-- Groups of at most three characters, taken from the front of an
already-reversed digit list. -/
def chunk3 : List Char → List (List Char)
  | [] => []
  | [a] => [[a]]
  | [a, b] => [[a, b]]
  | a :: b :: c :: rest => [a, b, c] :: chunk3 rest

/-- Decimal digits of a natural number grouped in threes with commas,
as `toLocaleString` renders an integer under the en-US locale. -/
def groupNat (n : ℕ) : String :=
  let parts := (chunk3 (Nat.toDigits 10 n).reverse).map List.reverse
  String.intercalate "," (parts.reverse.map String.mk)

/-- Fractional digits dropped of their trailing zeros. -/
def trimZeros (s : String) : String :=
  String.mk (s.toList.reverse.dropWhile (· = '0')).reverse

/-- `Number.prototype.toLocaleString()` under a fixed en-US locale:
sign, grouped integer part, and at most three fractional digits
(rounded half away from zero, trailing zeros dropped). -/
def localeString (q : ℚ) : String :=
  let sgn := if q < 0 then "-" else ""
  let a := if q < 0 then -q else q
  let m : ℕ := (Int.floor (qadd (qmul a 1000) (Rat.divInt 1 2))).toNat
  let frac := m % 1000
  sgn ++ groupNat (m / 1000) ++
    (if frac = 0 then "" else "." ++ trimZeros (pad3 frac))

/-- `formatMarketCap` from `src/static/script.js`: falsy input gives
`"N/A"`; otherwise values `≥ 1e9` are shown in billions with suffix `"B"`,
the rest in millions with suffix `"M"`, two decimals, `"$"`-prefixed. -/
def formatMarketCap (value : JSVal) : String :=
  if !truthy value then "N/A"
  else
    let billion : ℚ := 1000000000
    let million : ℚ := 1000000
    if numGE (toNumber value) billion then
      "$" ++ toFixedJS ((toNumber value).map (fun q => qdiv q billion)) ++ "B"
    else
      "$" ++ toFixedJS ((toNumber value).map (fun q => qdiv q million)) ++ "M"

/-- `formatNumber` from the script: the literal string `'N/A'` passes
through (strict equality), every other value is numerically coerced and
printed with `toFixed(2)`. -/
def formatNumber (value : JSVal) : String :=
  if value = JSVal.str "N/A" then "N/A" else toFixedJS (toNumber value)

/-- `formatPercentage` from the script: truthy values are multiplied by
100, printed with two decimals and suffixed `"%"`; falsy values give
`"N/A"`. -/
def formatPercentage (value : JSVal) : String :=
  if truthy value then
    toFixedJS ((toNumber value).map (fun q => qmul q 100)) ++ "%"
  else "N/A"

/-- `formatPrice` from the script: truthy values are `"$"`-prefixed with
two decimals, falsy give `"N/A"`.  A truthy non-number (necessarily a
nonempty string) has no `toFixed` method, so the call throws a
`TypeError`, modelled by `Except.error`. -/
def formatPrice (value : JSVal) : Except Unit String :=
  if truthy value then
    match value with
    | JSVal.num q => Except.ok ("$" ++ toFixed2 q)
    | _ => Except.error ()
  else Except.ok "N/A"

/-- `formatVolume` from the script, with the falsy check inlined per
constructor: truthy numbers render via `toLocaleString`, truthy strings
render as themselves (`String.prototype.toLocaleString` is the identity
here), all falsy values give `"N/A"`. -/
def formatVolume : JSVal → String
  | JSVal.num q => if q != 0 then localeString q else "N/A"
  | JSVal.str s => if s != "" then s else "N/A"
  | _ => "N/A"

example : formatPercentage (JSVal.num (Rat.divInt 523 10000)) = "5.23%" := by decide
example : formatPercentage (JSVal.num 0) = "N/A" := by decide
example : (formatPrice (JSVal.num (Rat.divInt 1425 10))).toOption = some "$142.50" := by decide
example : formatVolume (JSVal.num 1234567) = "1,234,567" := by decide
example : formatNumber JSVal.null = "0.00" := by decide
example : formatNumber JSVal.undef = "NaN" := by decide
example : formatMarketCap (JSVal.num 2500000000) = "$2.50B" := by decide
example : formatMarketCap (JSVal.num 500000000) = "$500.00M" := by decide
example : formatMarketCap (JSVal.num 1000000000) = "$1.00B" := by decide
example : formatVolume JSVal.null = "N/A" := by decide
example : formatNumber (JSVal.str "N/A") = "N/A" := by decide

/-- A row of the `GET /api/entries` response: a recorded (symbol, date)
pair. -/
structure Entry where
  symbol : String
  date : String
  deriving DecidableEq, Repr

/-- An `<option>` of the `db-entries` selection control, as produced by
the `innerHTML` assignment in `loadDbEntries`. -/
structure OptionEl where
  value : String
  text : String
  deriving DecidableEq, Repr

/-- The `GET /api/stock-info/{symbol}` response shape consumed by
`updateStockInfo`.  The three descriptive fields are written to
`textContent` verbatim; the six numeric fields pass through the
formatting helpers and may be numbers, `null`, absent, or strings. -/
structure StockInfo where
  name : String
  sector : String
  industry : String
  market_cap : JSVal
  peRatioVal : JSVal
  dividend_yield : JSVal
  fifty_two_week_high : JSVal
  fifty_two_week_low : JSVal
  avg_volume : JSVal
  deriving DecidableEq, Repr

/-- One OHLC point of the candlestick series (fields `o`/`h`/`l`/`c`
abbreviate open/high/low/close; the script passes the list to `setData`
wholesale). -/
structure Candle where
  time : Int
  o : ℚ
  h : ℚ
  l : ℚ
  c : ℚ
  deriving DecidableEq, Repr

/-- One (time, value) point of the volume histogram series. -/
structure VolPoint where
  time : Int
  value : ℚ
  deriving DecidableEq, Repr

/-- The `POST /api/chart-data` response shape consumed by `renderChart`. -/
structure ChartData where
  candlestick : List Candle
  volume : List VolPoint
  purchase_timestamp : Int
  deriving DecidableEq, Repr

/-- A series marker as passed to `setMarkers`. -/
structure Marker where
  time : Int
  position : String
  color : String
  shape : String
  text : String
  deriving DecidableEq, Repr

/-- One invocation of the external charting library, recorded in order.
`createChartCall` records the fixed layout options (height, background,
text color, grid line colors); `addCandlestickSeries` the up/down body
and wick colors and border visibility; `addHistogramSeries` the color,
price-format type, price-scale id and the top/bottom scale margins. -/
inductive LibCall where
  | clearContainer
  | createChartCall (height : ℕ) (background textColor vertLines horzLines : String)
  | addCandlestickSeries (upColor downColor : String) (borderVisible : Bool)
      (wickUpColor wickDownColor : String)
  | setCandleData (d : List Candle)
  | addHistogramSeries (color priceFormatType priceScaleId : String)
      (marginTop marginBottom : ℚ)
  | setVolumeData (d : List VolPoint)
  | setMarkers (ms : List Marker)
  | fitContent
  deriving DecidableEq, Repr

/-- A network request issued by the script, recorded in order. -/
inductive Request where
  | chartData (symbol purchaseDate : String)
  | stockInfo (symbol : String)
  | entries
  deriving DecidableEq, Repr

/-- The nine info-panel display slots written by `updateStockInfo` and
reset by `clearStockInfo`. -/
structure Panel where
  companyName : String
  sector : String
  industry : String
  marketCap : String
  peRatioSlot : String
  dividendYield : String
  high52 : String
  low52 : String
  avgVolume : String
  deriving DecidableEq, Repr

/-- The module-level chart instance: the data and markers loaded into its
series and whether `fitContent` has run. -/
structure ChartInst where
  candleData : List Candle
  volumeData : List VolPoint
  markers : List Marker
  fitted : Bool
  deriving DecidableEq, Repr

/-- The observable state of the page: the two input fields, the selection
control (its current value and its options), the info panel, the
module-level chart instance, and instrumentation traces (requests issued,
alerts, console logs, charting-library calls, and the arguments of every
`renderChart` / `updateStockInfo` invocation). -/
structure St where
  symbolField : String
  dateField : String
  selectValue : String
  dbOptions : List OptionEl
  panel : Panel
  chart : Option ChartInst
  requests : List Request
  alerts : List String
  logs : List String
  libCalls : List LibCall
  renderCalls : List (ChartData × String)
  updateCalls : List StockInfo
  deriving DecidableEq, Repr

/-- The outcomes of the three backend endpoints; a rejected fetch or a
failed `response.json()` parse is `Except.error ()`. -/
structure Env where
  chartData : String → String → Except Unit ChartData
  stockInfo : String → Except Unit StockInfo
  entries : Except Unit (List Entry)

/-- `loadDbEntries` from the script: fetch `/api/entries`, parse, and
replace the selection control's options with one `<option>` per record,
value-encoded `symbol|date` and labelled `symbol - date`; on failure log
to the console and change nothing else. -/
def loadDbEntries (env : Env) (st : St) : St :=
  let st := { st with requests := st.requests ++ [Request.entries] }
  match env.entries with
  | Except.ok entries =>
    { st with dbOptions := entries.map (fun e =>
        { value := e.symbol ++ "|" ++ e.date, text := e.symbol ++ " - " ++ e.date }) }
  | Except.error _ =>
    { st with logs := st.logs ++ ["Error loading database entries:"] }

/-- `createChart` from the script: clear the container's DOM if a chart
instance already exists (the module-level `chart` is non-null), then
create a fresh instance with the fixed layout options and store it in the
module-level variable. -/
def createChartFn (st : St) : St :=
  let st :=
    if st.chart.isSome then
      { st with libCalls := st.libCalls ++ [LibCall.clearContainer] }
    else st
  { st with
    chart := some { candleData := [], volumeData := [], markers := [], fitted := false },
    libCalls := st.libCalls ++
      [LibCall.createChartCall 600 "#131722" "#d1d4dc" "#1e222d" "#1e222d"] }

/-- The info panel with every one of its nine slots holding `"-"`. -/
def blankPanel : Panel :=
  { companyName := "-", sector := "-", industry := "-", marketCap := "-",
    peRatioSlot := "-", dividendYield := "-", high52 := "-", low52 := "-",
    avgVolume := "-" }

/-- `clearStockInfo` from the script: every one of the nine info-panel
slots is reset to `"-"`. -/
def clearStockInfo (st : St) : St :=
  { st with panel := blankPanel }

/-- `updateStockInfo` from the script: writes the nine formatted fields in
source order.  The two `formatPrice` calls can throw (on a truthy
non-number); the Boolean of the result records whether the function threw,
and the state it carries reflects the writes performed before the throw.
The invocation itself is recorded in `updateCalls`. -/
def updateStockInfo (info : StockInfo) (st0 : St) : St × Bool :=
  let st := { st0 with updateCalls := st0.updateCalls ++ [info] }
  let p := { st.panel with
    companyName := info.name,
    sector := info.sector,
    industry := info.industry,
    marketCap := formatMarketCap info.market_cap,
    peRatioSlot := formatNumber info.peRatioVal,
    dividendYield := formatPercentage info.dividend_yield }
  match formatPrice info.fifty_two_week_high with
  | Except.error _ => ({ st with panel := p }, true)
  | Except.ok hi =>
    let p := { p with high52 := hi }
    match formatPrice info.fifty_two_week_low with
    | Except.error _ => ({ st with panel := p }, true)
    | Except.ok lo =>
      ({ st with panel :=
        { p with low52 := lo, avgVolume := formatVolume info.avg_volume } }, false)

/-- `renderChart` from the script: record the invocation, run
`createChart`, attach the candlestick series (fixed up/down colors), load
the candlestick data, attach the volume histogram series on the `volume`
price scale with scale margins top `0.8` / bottom `0`, load the volume
data, set the single `BUY` marker below the bar at the purchase
timestamp, and fit the time scale.  (The `symbol` parameter is unused in
the source body; the local `volumeSeries` shadows the module-level one.) -/
def renderChart (data : ChartData) (symbol : String) (st0 : St) : St :=
  let st := { st0 with renderCalls := st0.renderCalls ++ [(data, symbol)] }
  let st := createChartFn st
  let buyMarker : Marker :=
    { time := data.purchase_timestamp, position := "belowBar",
      color := "#ffeb3b", shape := "arrowUp", text := "BUY" }
  { st with
    libCalls := st.libCalls ++
      [LibCall.addCandlestickSeries "#26a69a" "#ef5350" false "#26a69a" "#ef5350",
       LibCall.setCandleData data.candlestick,
       LibCall.addHistogramSeries "#26a69a" "volume" "volume" (Rat.divInt 8 10) 0,
       LibCall.setVolumeData data.volume,
       LibCall.setMarkers [buyMarker],
       LibCall.fitContent],
    chart := some
      { candleData := data.candlestick, volumeData := data.volume,
        markers := [buyMarker], fitted := true } }

/-- The catch-all handler of `showChart`: log, alert, and clear the nine
info-panel slots; the chart and everything else are left untouched. -/
def errHandler (st : St) : St :=
  clearStockInfo
    { st with
      logs := st.logs ++ ["Error loading data:"],
      alerts := st.alerts ++ ["Error loading data"] }

/-- `showChart` from the script: read the two input fields; if either is
empty (the only falsy string) alert and stop.  Otherwise issue the
chart-data POST and the stock-info GET together (`Promise.all`), and on
joint success render the chart then update the info panel; if either
request or parse fails — or `updateStockInfo` throws — fall to the
catch-all handler. -/
def showChart (env : Env) (st : St) : St :=
  let symbol := st.symbolField
  let purchaseDate := st.dateField
  if symbol = "" || purchaseDate = "" then
    { st with alerts := st.alerts ++ ["Please enter both symbol and date"] }
  else
    let st1 := { st with requests := st.requests ++
      [Request.chartData symbol purchaseDate, Request.stockInfo symbol] }
    match env.chartData symbol purchaseDate, env.stockInfo symbol with
    | Except.ok cd, Except.ok info =>
      let r := updateStockInfo info (renderChart cd symbol st1)
      if r.2 then errHandler r.1 else r.1
    | _, _ => errHandler st1

/-- Character-level split at `'|'`; always returns at least one (possibly
empty) group, like `String.prototype.split`. -/
def splitPipe : List Char → List (List Char)
  | [] => [[]]
  | c :: rest =>
    match splitPipe rest with
    | [] => [[]]
    | g :: gs => if c = '|' then [] :: g :: gs else (c :: g) :: gs

/-- JavaScript `value.split('|')` on a string. -/
def jsSplit (s : String) : List String :=
  (splitPipe s.toList).map String.mk

/-- `showDbChart` from the script: split the selection control's value at
`"|"`, write the first piece into the symbol field and the second into
the date field (a missing piece is written as JavaScript renders
`undefined`), then call `showChart`. -/
def showDbChart (env : Env) (st : St) : St :=
  let parts := jsSplit st.selectValue
  let symbol := (parts[0]?).getD "undefined"
  let date := (parts[1]?).getD "undefined"
  showChart env { st with symbolField := symbol, dateField := date }

theorem errHandler_def (st : St) :
    errHandler st =
      { st with panel := blankPanel,
                logs := st.logs ++ ["Error loading data:"],
                alerts := st.alerts ++ ["Error loading data"] } := rfl

/-- The single BUY marker placed by `renderChart` on a given data set. -/
def buyMarkerOf (data : ChartData) : Marker :=
  { time := data.purchase_timestamp, position := "belowBar",
    color := "#ffeb3b", shape := "arrowUp", text := "BUY" }

/-- The charting-library calls `renderChart` appends after the optional
container clear. -/
def renderCallsOf (data : ChartData) : List LibCall :=
  [LibCall.createChartCall 600 "#131722" "#d1d4dc" "#1e222d" "#1e222d",
   LibCall.addCandlestickSeries "#26a69a" "#ef5350" false "#26a69a" "#ef5350",
   LibCall.setCandleData data.candlestick,
   LibCall.addHistogramSeries "#26a69a" "volume" "volume" (Rat.divInt 8 10) 0,
   LibCall.setVolumeData data.volume,
   LibCall.setMarkers [buyMarkerOf data],
   LibCall.fitContent]

theorem renderChart_def (data : ChartData) (s : String) (st : St) :
    renderChart data s st =
      { st with
        renderCalls := st.renderCalls ++ [(data, s)],
        chart := some
          { candleData := data.candlestick, volumeData := data.volume,
            markers := [buyMarkerOf data], fitted := true },
        libCalls := st.libCalls ++
          (if st.chart.isSome then [LibCall.clearContainer] else []) ++
          renderCallsOf data } := by
  unfold renderChart createChartFn
  rcases st.chart with _ | c <;>
    simp [buyMarkerOf, renderCallsOf, List.append_assoc]

theorem updateStockInfo_symbolField (i : StockInfo) (st : St) :
    (updateStockInfo i st).1.symbolField = st.symbolField := by
  unfold updateStockInfo
  rcases formatPrice i.fifty_two_week_high with e | hi
  · rfl
  · rcases formatPrice i.fifty_two_week_low with e | lo <;> rfl

theorem updateStockInfo_dateField (i : StockInfo) (st : St) :
    (updateStockInfo i st).1.dateField = st.dateField := by
  unfold updateStockInfo
  rcases formatPrice i.fifty_two_week_high with e | hi
  · rfl
  · rcases formatPrice i.fifty_two_week_low with e | lo <;> rfl

theorem updateStockInfo_requests (i : StockInfo) (st : St) :
    (updateStockInfo i st).1.requests = st.requests := by
  unfold updateStockInfo
  rcases formatPrice i.fifty_two_week_high with e | hi
  · rfl
  · rcases formatPrice i.fifty_two_week_low with e | lo <;> rfl

theorem updateStockInfo_renderCalls (i : StockInfo) (st : St) :
    (updateStockInfo i st).1.renderCalls = st.renderCalls := by
  unfold updateStockInfo
  rcases formatPrice i.fifty_two_week_high with e | hi
  · rfl
  · rcases formatPrice i.fifty_two_week_low with e | lo <;> rfl

theorem updateStockInfo_updateCalls (i : StockInfo) (st : St) :
    (updateStockInfo i st).1.updateCalls = st.updateCalls ++ [i] := by
  unfold updateStockInfo
  rcases formatPrice i.fifty_two_week_high with e | hi
  · rfl
  · rcases formatPrice i.fifty_two_week_low with e | lo <;> rfl

theorem showChart_frame (env : Env) (st : St) :
    (showChart env st).symbolField = st.symbolField ∧
    (showChart env st).dateField = st.dateField := by
  simp only [showChart]
  split
  · exact ⟨rfl, rfl⟩
  · rcases env.chartData st.symbolField st.dateField with e | cd
    · exact ⟨rfl, rfl⟩
    · rcases env.stockInfo st.symbolField with e | info
      · exact ⟨rfl, rfl⟩
      · dsimp only
        split <;>
          simp [errHandler_def, updateStockInfo_symbolField,
            updateStockInfo_dateField, renderChart_def]

/-- C2: `formatMarketCap` renders any value `≥ 1e9` as the value divided
by `1e9` with two decimals, `"$"`-prefixed and `"B"`-suffixed; any
positive value `< 1e9` as the value divided by `1e6` with two decimals,
`"$"`-prefixed and `"M"`-suffixed; and `0`, `null` and `undefined` as
`"N/A"`. -/
theorem formatMarketCap_spec (q : ℚ) :
    ((1000000000 : ℚ) ≤ q →
      formatMarketCap (JSVal.num q) = "$" ++ toFixed2 (q / 1000000000) ++ "B") ∧
    (0 < q → q < 1000000000 →
      formatMarketCap (JSVal.num q) = "$" ++ toFixed2 (q / 1000000) ++ "M") ∧
    formatMarketCap (JSVal.num 0) = "N/A" ∧
    formatMarketCap JSVal.null = "N/A" ∧
    formatMarketCap JSVal.undef = "N/A" := by
  refine ⟨fun h => ?_, fun h0 h1 => ?_, by decide, by decide, by decide⟩
  · have hne : q ≠ 0 := ne_of_gt (lt_of_lt_of_le (by norm_num) h)
    simp [formatMarketCap, truthy, toNumber, numGE, hne, h, toFixedJS, qdiv_eq]
  · have hne : q ≠ 0 := ne_of_gt h0
    have hnge : ¬ ((1000000000 : ℚ) ≤ q) := not_le.mpr h1
    simp [formatMarketCap, truthy, toNumber, numGE, hne, hnge, toFixedJS, qdiv_eq]

/-- Witness for C2 at `2.5e9` (the `"B"` branch) and `5e8` (the `"M"`
branch). -/
theorem formatMarketCap_spec_w :
    formatMarketCap (JSVal.num 2500000000) =
      "$" ++ toFixed2 ((2500000000 : ℚ) / 1000000000) ++ "B" ∧
    formatMarketCap (JSVal.num 500000000) =
      "$" ++ toFixed2 ((500000000 : ℚ) / 1000000) ++ "M" :=
  ⟨(formatMarketCap_spec 2500000000).1 (by norm_num),
   (formatMarketCap_spec 500000000).2.1 (by norm_num) (by norm_num)⟩

/-- C8: `formatPercentage` renders any nonzero number as the value times
100 with two decimals and a `"%"` suffix, and `0`, `null` and `undefined`
as `"N/A"`; in particular `0.0523` renders as `"5.23%"`. -/
theorem formatPercentage_spec (q : ℚ) :
    (q ≠ 0 → formatPercentage (JSVal.num q) = toFixed2 (q * 100) ++ "%") ∧
    formatPercentage (JSVal.num 0) = "N/A" ∧
    formatPercentage JSVal.null = "N/A" ∧
    formatPercentage JSVal.undef = "N/A" ∧
    formatPercentage (JSVal.num (523 / 10000)) = "5.23%" := by
  have hd : (523 / 10000 : ℚ) = Rat.divInt 523 10000 := by
    rw [Rat.divInt_eq_div]; norm_num
  refine ⟨fun h => ?_, by decide, by decide, by decide, by rw [hd]; decide⟩
  simp [formatPercentage, truthy, toNumber, h, toFixedJS, qmul_eq]

/-- Witness for C8 at `0.0523`. -/
theorem formatPercentage_spec_w :
    formatPercentage (JSVal.num (523 / 10000)) =
      toFixed2 ((523 / 10000 : ℚ) * 100) ++ "%" :=
  (formatPercentage_spec (523 / 10000)).1 (by norm_num)

/-- C9: `formatNumber` renders every number with two decimal places and
passes the literal sentinel string `"N/A"` through unchanged; it is a
total function on `JSVal`. -/
theorem formatNumber_spec :
    (∀ q : ℚ, formatNumber (JSVal.num q) = toFixed2 q) ∧
    formatNumber (JSVal.str "N/A") = "N/A" := by
  refine ⟨fun q => ?_, by decide⟩
  simp [formatNumber, toNumber, toFixedJS]

/-- C10: `formatNumber` alone does not map missing input to `"N/A"`:
`null` coerces to `0` and renders as `"0.00"`, `undefined` coerces to NaN
and renders as `"NaN"`, while the other four helpers render both `null`
and `undefined` as `"N/A"`. -/
theorem formatNumber_missing_behaviour :
    formatNumber JSVal.null = "0.00" ∧
    formatNumber JSVal.undef = "NaN" ∧
    formatMarketCap JSVal.null = "N/A" ∧
    formatMarketCap JSVal.undef = "N/A" ∧
    formatPercentage JSVal.null = "N/A" ∧
    formatPercentage JSVal.undef = "N/A" ∧
    formatPrice JSVal.null = Except.ok "N/A" ∧
    formatPrice JSVal.undef = Except.ok "N/A" ∧
    formatVolume JSVal.null = "N/A" ∧
    formatVolume JSVal.undef = "N/A" :=
  ⟨by decide, by decide, by decide, by decide, by decide, by decide,
   rfl, rfl, by decide, by decide⟩

/-- Counterexample to C3: for `formatNumber`, a zero input and the
missing input `undefined` do not produce the same string. -/
theorem format_zero_vs_missing_cex :
    formatNumber (JSVal.num 0) = "0.00" ∧
    formatNumber JSVal.undef = "NaN" ∧
    formatNumber (JSVal.num 0) ≠ formatNumber JSVal.undef :=
  ⟨by decide, by decide, by decide⟩

/-- C3 as amended: `formatMarketCap`, `formatPercentage`, `formatPrice`
and `formatVolume` map zero, `null` and `undefined` to the identical
output `"N/A"`; `formatNumber` maps zero and `null` to the identical
output `"0.00"` but maps `undefined` to `"NaN"`. -/
theorem format_zero_vs_missing_amended :
    (formatMarketCap (JSVal.num 0) = "N/A" ∧
     formatMarketCap JSVal.null = "N/A" ∧
     formatMarketCap JSVal.undef = "N/A") ∧
    (formatPercentage (JSVal.num 0) = "N/A" ∧
     formatPercentage JSVal.null = "N/A" ∧
     formatPercentage JSVal.undef = "N/A") ∧
    (formatPrice (JSVal.num 0) = Except.ok "N/A" ∧
     formatPrice JSVal.null = Except.ok "N/A" ∧
     formatPrice JSVal.undef = Except.ok "N/A") ∧
    (formatVolume (JSVal.num 0) = "N/A" ∧
     formatVolume JSVal.null = "N/A" ∧
     formatVolume JSVal.undef = "N/A") ∧
    (formatNumber (JSVal.num 0) = "0.00" ∧
     formatNumber JSVal.null = "0.00" ∧
     formatNumber JSVal.undef = "NaN") :=
  ⟨⟨by decide, by decide, by decide⟩,
   ⟨by decide, by decide, by decide⟩,
   ⟨rfl, rfl, rfl⟩,
   ⟨by decide, by decide, by decide⟩,
   ⟨by decide, by decide, by decide⟩⟩

/-- A concrete initial page state (blank inputs, blank panel, no chart). -/
def stBlank : St :=
  { symbolField := "", dateField := "", selectValue := "", dbOptions := [],
    panel := blankPanel, chart := none, requests := [], alerts := [],
    logs := [], libCalls := [], renderCalls := [], updateCalls := [] }

/-- A concrete page state with the inputs and the selection filled. -/
def stFilled : St :=
  { stBlank with symbolField := "AAPL", dateField := "2024-01-05",
                 selectValue := "AAPL|2024-01-05" }

/-- A concrete chart-data response. -/
def cdSample : ChartData :=
  { candlestick := [{ time := 1, o := 1, h := 2, l := 1, c := 2 }],
    volume := [{ time := 1, value := 1000 }],
    purchase_timestamp := 1 }

/-- A concrete stock-info response. -/
def infoSample : StockInfo :=
  { name := "Apple Inc.", sector := "Technology", industry := "Consumer Electronics",
    market_cap := JSVal.num 2500000000, peRatioVal := JSVal.num 30,
    dividend_yield := JSVal.num (Rat.divInt 52 10000),
    fifty_two_week_high := JSVal.num 200, fifty_two_week_low := JSVal.num 100,
    avg_volume := JSVal.num 1000000 }

/-- An environment in which every endpoint fails. -/
def envFail : Env :=
  { chartData := fun _ _ => Except.error (),
    stockInfo := fun _ => Except.error (),
    entries := Except.error () }

/-- An environment in which every endpoint succeeds with the sample
responses. -/
def envOk : Env :=
  { chartData := fun _ _ => Except.ok cdSample,
    stockInfo := fun _ => Except.ok infoSample,
    entries := Except.ok [{ symbol := "AAPL", date := "2024-01-05" }] }

/-- C4: when the symbol field or the date field is empty, `showChart`
appends only the validation alert: no request is issued and every other
component of the state (panel, chart, options, traces) is unchanged. -/
theorem showChart_validation (env : Env) (st : St)
    (h : st.symbolField = "" ∨ st.dateField = "") :
    showChart env st =
      { st with alerts := st.alerts ++ ["Please enter both symbol and date"] } := by
  rcases h with h | h <;> simp [showChart, h]

/-- Witness for C4: the blank state with an explicitly empty symbol
field, under the all-failing environment. -/
theorem showChart_validation_w :
    showChart envFail stBlank =
      { stBlank with alerts := stBlank.alerts ++ ["Please enter both symbol and date"] } :=
  showChart_validation envFail stBlank (Or.inl rfl)

/-- C5: when the selection control's value splits at `"|"` into exactly a
symbol and a date, `showDbChart` behaves exactly as `showChart` run on
the state whose input fields hold that symbol and that date; in
particular the two input fields afterwards hold exactly the selected
pair. -/
theorem showDbChart_delegates (env : Env) (st : St) (s d : String)
    (h : jsSplit st.selectValue = [s, d]) :
    showDbChart env st =
      showChart env { st with symbolField := s, dateField := d } ∧
    (showDbChart env st).symbolField = s ∧
    (showDbChart env st).dateField = d := by
  have h1 : showDbChart env st =
      showChart env { st with symbolField := s, dateField := d } := by
    unfold showDbChart
    rw [h]
    rfl
  refine ⟨h1, ?_, ?_⟩ <;> rw [h1]
  · exact (showChart_frame env _).1
  · exact (showChart_frame env _).2

/-- Witness for C5 at the selection value `"AAPL|2024-01-05"`. -/
theorem showDbChart_delegates_w :
    showDbChart envOk stFilled =
      showChart envOk
        { stFilled with symbolField := "AAPL", dateField := "2024-01-05" } ∧
    (showDbChart envOk stFilled).symbolField = "AAPL" ∧
    (showDbChart envOk stFilled).dateField = "2024-01-05" :=
  showDbChart_delegates envOk stFilled "AAPL" "2024-01-05" (by decide)

/-- C6: `renderChart` always emits, in order: the container clear exactly
when a prior chart instance exists, the chart creation with the fixed
layout, a candlestick series with the fixed up/down colors loaded with
the candlestick data, a histogram series on the `volume` price scale
whose scale margins are top `0.8` / bottom `0` (the series occupies the
bottom 20% of the pane) loaded with the volume data, a single marker at
the purchase timestamp positioned `belowBar` with text `"BUY"`, and a
`fitContent` call; the stored chart instance afterwards holds exactly the
loaded data, that single marker, and is fitted. -/
theorem renderChart_contract (data : ChartData) (s : String) (st : St) :
    (renderChart data s st).libCalls =
      st.libCalls ++
        (if st.chart.isSome then [LibCall.clearContainer] else []) ++
        [LibCall.createChartCall 600 "#131722" "#d1d4dc" "#1e222d" "#1e222d",
         LibCall.addCandlestickSeries "#26a69a" "#ef5350" false "#26a69a" "#ef5350",
         LibCall.setCandleData data.candlestick,
         LibCall.addHistogramSeries "#26a69a" "volume" "volume" (Rat.divInt 8 10) 0,
         LibCall.setVolumeData data.volume,
         LibCall.setMarkers
           [{ time := data.purchase_timestamp, position := "belowBar",
              color := "#ffeb3b", shape := "arrowUp", text := "BUY" }],
         LibCall.fitContent] ∧
    (renderChart data s st).chart =
      some { candleData := data.candlestick, volumeData := data.volume,
             markers := [{ time := data.purchase_timestamp, position := "belowBar",
                           color := "#ffeb3b", shape := "arrowUp", text := "BUY" }],
             fitted := true } := by
  rw [renderChart_def]
  exact ⟨rfl, rfl⟩

/-- C7: `loadDbEntries` always issues the entries request; on success it
replaces the selection control's options with exactly one option per
record, value-encoded `symbol|date`, leaving logs and alerts alone; on
failure it only appends a console log — the options and the alerts (no
user-visible error) are unchanged. -/
theorem loadDbEntries_contract (env : Env) (st : St) :
    ((loadDbEntries env st).requests = st.requests ++ [Request.entries]) ∧
    (∀ es, env.entries = Except.ok es →
      (loadDbEntries env st).dbOptions =
        es.map (fun e =>
          { value := e.symbol ++ "|" ++ e.date,
            text := e.symbol ++ " - " ++ e.date }) ∧
      (loadDbEntries env st).logs = st.logs ∧
      (loadDbEntries env st).alerts = st.alerts) ∧
    (env.entries = Except.error () →
      (loadDbEntries env st).dbOptions = st.dbOptions ∧
      (loadDbEntries env st).logs = st.logs ++ ["Error loading database entries:"] ∧
      (loadDbEntries env st).alerts = st.alerts) := by
  rcases h : env.entries with e | es <;> simp [loadDbEntries, h]

/-- Witness for C7: a successful load populates one option per record,
and a failed load only logs. -/
theorem loadDbEntries_contract_w :
    (loadDbEntries envOk stBlank).dbOptions =
      [{ value := "AAPL|2024-01-05", text := "AAPL - 2024-01-05" }] ∧
    (loadDbEntries envFail stBlank).logs =
      stBlank.logs ++ ["Error loading database entries:"] := by
  constructor
  · have h := ((loadDbEntries_contract envOk stBlank).2.1
      [{ symbol := "AAPL", date := "2024-01-05" }] rfl).1
    rw [h]
    decide
  · exact ((loadDbEntries_contract envFail stBlank).2.2 rfl).2.1

/-- The joint-fetch contract of `showChart` past validation: both
requests are issued; on joint success `renderChart` and `updateStockInfo`
are invoked exactly once each, with the parsed chart data (and symbol)
and the parsed stock info respectively; if either request fails, neither
is invoked and instead the error is logged, the blocking alert is shown,
the nine info-panel slots all become `"-"`, and the chart state (instance
and library calls) is untouched. -/
def ShowChartContract (env : Env) (st : St) : Prop :=
  let s := st.symbolField
  let d := st.dateField
  let post := showChart env st
  post.requests = st.requests ++ [Request.chartData s d, Request.stockInfo s] ∧
  (∀ cd info, env.chartData s d = Except.ok cd →
      env.stockInfo s = Except.ok info →
    post.renderCalls = st.renderCalls ++ [(cd, s)] ∧
    post.updateCalls = st.updateCalls ++ [info]) ∧
  (env.chartData s d = Except.error () ∨ env.stockInfo s = Except.error () →
    post.renderCalls = st.renderCalls ∧
    post.updateCalls = st.updateCalls ∧
    post.libCalls = st.libCalls ∧
    post.chart = st.chart ∧
    post.logs = st.logs ++ ["Error loading data:"] ∧
    post.alerts = st.alerts ++ ["Error loading data"] ∧
    post.panel = blankPanel)

/-- C1: the chart-data and stock-info requests of `showChart` are issued
together and joined; joint success invokes both consumers with their
parsed responses, any failure invokes neither and takes the
log/alert/clear path, leaving the chart untouched. -/
theorem showChart_contract (env : Env) (st : St)
    (hs : st.symbolField ≠ "") (hd : st.dateField ≠ "") :
    ShowChartContract env st := by
  unfold ShowChartContract
  simp only [showChart]
  rw [if_neg (by simp [hs, hd])]
  rcases hcd : env.chartData st.symbolField st.dateField with e | cd
  · simp [hcd, errHandler_def]
  · rcases hsi : env.stockInfo st.symbolField with e | info
    · simp [hcd, hsi, errHandler_def]
    · dsimp only
      split <;>
        simp [errHandler_def, renderChart_def, updateStockInfo_requests,
          updateStockInfo_renderCalls, updateStockInfo_updateCalls]

/-- Witness for C1: the filled state under the all-succeeding
environment. -/
theorem showChart_contract_w : ShowChartContract envOk stFilled :=
  showChart_contract envOk stFilled (by decide) (by decide)
